import Mathlib

/-!
Verification of the `moka` unsynchronized cache fragment.

The source under scrutiny is `src/unsync/builder.rs` (the configuration
builder of the single-threaded cache). The cache type itself
(`moka::unsync::Cache`, file `src/unsync/mod.rs`) is not part of the
source fragment, so its operations are modelled from the specification;
every such definition carries a doc comment starting with
"Modelled from the spec:".

Machine integers: the builder uses `u64` seconds; all values involved
(at most 1001 years of seconds, or their nanosecond counts) are far
below 2^64, so `Nat` models them exactly and no overflow reduction is
needed.
-/

namespace Moka

/-- Number of nanoseconds in one second, as in `std::time::Duration`. -/
def NANOS_PER_SEC : Nat := 1000000000

/-- Embedding of `std::time::Duration` as its total nanosecond count.
A Rust duration is a pair (seconds, nanos < 10^9) compared
lexicographically, which coincides with comparison of total
nanoseconds. -/
structure Duration where
  nanos : Nat
deriving DecidableEq

/-- Embedding of `Duration::from_secs`. -/
def Duration.from_secs (s : Nat) : Duration :=
  ⟨s * NANOS_PER_SEC⟩

instance : LT Duration :=
  ⟨fun a b => a.nanos < b.nanos⟩

instance : LE Duration :=
  ⟨fun a b => a.nanos ≤ b.nanos⟩

instance (a b : Duration) : Decidable (a < b) :=
  inferInstanceAs (Decidable (a.nanos < b.nanos))

instance (a b : Duration) : Decidable (a ≤ b) :=
  inferInstanceAs (Decidable (a.nanos ≤ b.nanos))

theorem Duration.lt_def (a b : Duration) : a < b ↔ a.nanos < b.nanos :=
  Iff.rfl

theorem Duration.le_def (a b : Duration) : a ≤ b ↔ a.nanos ≤ b.nanos :=
  Iff.rfl

/-- `const YEAR_SECONDS: u64 = 365 * 24 * 3600;` from `builder.rs`. -/
def YEAR_SECONDS : Nat := 365 * 24 * 3600

/-- The validation cutoff used by `CacheBuilder::build`:
`Duration::from_secs(1_000 * YEAR_SECONDS)`. -/
def thousand_years : Duration :=
  Duration.from_secs (1000 * YEAR_SECONDS)

/-- Modelled from the spec: a cache entry (spec section 3) binds a value
to its insertion timestamp (set on create/replace), its access
timestamp (updated on read) and its policy weight. The generation
counter is omitted: it only disambiguates stale channel events, and the
single-threaded model applies every event synchronously. Timestamps are
logical clock readings in nanoseconds. -/
structure Entry (V : Type) where
  value : V
  insert_time : Nat
  access_time : Nat
  weight : Nat
deriving DecidableEq

/-- Modelled from the spec: `moka::unsync::Cache` (file `src/unsync/mod.rs`,
absent from the fragment). It freezes the builder tunables and owns the
map store, modelled as an association list from key to entry. -/
structure Cache (K V : Type) where
  max_capacity : Option Nat
  initial_capacity : Option Nat
  weigher : Option (K → V → Nat)
  time_to_live : Option Duration
  time_to_idle : Option Duration
  entries : List (K × Entry V)

/-- Modelled from the spec: `Cache::with_everything` (absent from the
fragment), the constructor `build`/`build_with_hasher` delegate to. Per
spec section 7 the foreground surface is infallible, so it is total; it
returns the empty cache holding the frozen tunables. The hasher and the
initial-capacity sizing hint do not affect observable behaviour in this
model. -/
def Cache.with_everything {K V : Type} (mc : Option Nat) (ic : Option Nat)
    (w : Option (K → V → Nat)) (ttl : Option Duration) (tti : Option Duration) :
    Cache K V :=
  ⟨mc, ic, w, ttl, tti, []⟩

/-- Embedding of `CacheBuilder` (file `src/unsync/builder.rs`). The
`cache_type: PhantomData<C>` marker carries no data and is omitted. The
weigher is a pure function, per the spec's purity contract. -/
structure CacheBuilder (K V : Type) where
  max_capacity : Option Nat
  initial_capacity : Option Nat
  weigher : Option (K → V → Nat)
  time_to_live : Option Duration
  time_to_idle : Option Duration

/-- Embedding of `impl Default for CacheBuilder`: every field `None`. -/
def CacheBuilder.mk_default {K V : Type} : CacheBuilder K V :=
  ⟨none, none, none, none, none⟩

/-- Embedding of `CacheBuilder::new`. -/
def CacheBuilder.new {K V : Type} (max_capacity : Nat) : CacheBuilder K V :=
  { CacheBuilder.mk_default with max_capacity := some max_capacity }

/-- The message of the TTL range-check panic in `CacheBuilder::build`. -/
def ttl_error_message : String := "time_to_live is longer than 1000 years"

/-- The message of the TTI range-check panic in `CacheBuilder::build`. -/
def tti_error_message : String := "time_to_idle is longer than 1000 years"

/-- Embedding of the range-check expression
`opt.map(|d| if Duration::from_secs(1_000 * YEAR_SECONDS) < d { panic!(msg) } else { d })`
in `CacheBuilder::build`. Rust's `Option::map` evaluates its closure
eagerly on a `Some`, so the panic fires even though the mapped value is
discarded; a panic is modelled as `Except.error`. -/
def duration_check (o : Option Duration) (msg : String) : Except String Unit :=
  match o with
  | some d =>
      if thousand_years < d then Except.error msg else Except.ok ()
  | none => Except.ok ()

/-- Embedding of `CacheBuilder::build`: range-check the TTL, then the
TTI, then delegate to `Cache::with_everything`. A panic surfaces as
`Except.error` carrying the panic message. -/
def CacheBuilder.build {K V : Type} (b : CacheBuilder K V) :
    Except String (Cache K V) :=
  match duration_check b.time_to_live ttl_error_message with
  | Except.error e => Except.error e
  | Except.ok _ =>
      match duration_check b.time_to_idle tti_error_message with
      | Except.error e => Except.error e
      | Except.ok _ =>
          Except.ok (Cache.with_everything b.max_capacity b.initial_capacity
            b.weigher b.time_to_live b.time_to_idle)

/-- Embedding of `CacheBuilder::build_with_hasher`: it delegates directly
to `Cache::with_everything` with NO range check on TTL or TTI (compare
with `build`). The hasher argument is kept to mirror the signature. -/
def CacheBuilder.build_with_hasher {K V S : Type} (b : CacheBuilder K V)
    (_hasher : S) : Except String (Cache K V) :=
  Except.ok (Cache.with_everything b.max_capacity b.initial_capacity
    b.weigher b.time_to_live b.time_to_idle)

/-- Embedding of the setter `CacheBuilder::max_capacity` (named `set_`
because the Lean field projection already takes the source name). -/
def CacheBuilder.set_max_capacity {K V : Type} (b : CacheBuilder K V)
    (m : Nat) : CacheBuilder K V :=
  { b with max_capacity := some m }

/-- Embedding of the setter `CacheBuilder::initial_capacity`. -/
def CacheBuilder.set_initial_capacity {K V : Type} (b : CacheBuilder K V)
    (c : Nat) : CacheBuilder K V :=
  { b with initial_capacity := some c }

/-- Embedding of the setter `CacheBuilder::weigher`. -/
def CacheBuilder.set_weigher {K V : Type} (b : CacheBuilder K V)
    (w : K → V → Nat) : CacheBuilder K V :=
  { b with weigher := some w }

/-- Embedding of the setter `CacheBuilder::time_to_live`. -/
def CacheBuilder.set_time_to_live {K V : Type} (b : CacheBuilder K V)
    (d : Duration) : CacheBuilder K V :=
  { b with time_to_live := some d }

/-- Embedding of the setter `CacheBuilder::time_to_idle`. -/
def CacheBuilder.set_time_to_idle {K V : Type} (b : CacheBuilder K V)
    (d : Duration) : CacheBuilder K V :=
  { b with time_to_idle := some d }

/-- Modelled from the spec: the weight the cache assigns on admission
(spec sections 3 and 4.6): the weigher's result with a result of 0
promoted to 1, or the constant 1 when no weigher is configured. -/
def entry_weight {K V : Type} (w : Option (K → V → Nat)) (k : K) (v : V) :
    Nat :=
  match w with
  | some f => max 1 (f k v)
  | none => 1

/-- Modelled from the spec: logical expiry of an entry (spec section 3
invariants): past its insertion timestamp plus TTL, or past its access
timestamp plus TTI. -/
def Cache.is_expired {K V : Type} (c : Cache K V) (e : Entry V)
    (now : Nat) : Bool :=
  (match c.time_to_live with
   | some d => decide (e.insert_time + d.nanos < now)
   | none => false) ||
  (match c.time_to_idle with
   | some d => decide (e.access_time + d.nanos < now)
   | none => false)

/-- Modelled from the spec: `insert(k, v)` (spec section 4.1):
insert-or-replace of the binding; a replace creates a fresh entry with
fresh timestamps and a freshly computed weight. The replaced-cause
eviction notification is omitted (no claim concerns notifications). -/
def Cache.insert {K V : Type} [DecidableEq K] (c : Cache K V) (k : K)
    (v : V) (now : Nat) : Cache K V :=
  { c with entries := c.entries.filter (fun p => decide (p.1 ≠ k)) ++
      [(k, ⟨v, now, now, entry_weight c.weigher k v⟩)] }

/-- Modelled from the spec: the access-timestamp refresh a live `get`
performs (spec section 4.1). -/
def Cache.touch {K V : Type} [DecidableEq K] (c : Cache K V) (k : K)
    (now : Nat) : Cache K V :=
  { c with entries := c.entries.map fun q =>
      if decide (q.1 = k) then (q.1, { q.2 with access_time := now }) else q }

/-- Modelled from the spec: `get(k)` (spec section 4.1): lookup; an
entry past its TTL or TTI is treated as absent and NOT removed (physical
removal is deferred to the Housekeeper); a live hit returns the value
and refreshes the access timestamp. The read-event enqueue is omitted
(the model applies events synchronously). -/
def Cache.get {K V : Type} [DecidableEq K] (c : Cache K V) (k : K)
    (now : Nat) : Option V × Cache K V :=
  match c.entries.find? (fun p => decide (p.1 = k)) with
  | none => (none, c)
  | some p =>
      if c.is_expired p.2 now then (none, c)
      else (some p.2.value, c.touch k now)

/-- Modelled from the spec: `len()` (spec section 4.1), the count of
physically present entries. -/
def Cache.len {K V : Type} (c : Cache K V) : Nat :=
  c.entries.length

/-- Sum of the policy weights of a list of entries. -/
def entries_weight {K V : Type} (l : List (K × Entry V)) : Nat :=
  (l.map (fun p => p.2.weight)).sum

/-- Modelled from the spec: `weighted_size()` (spec section 4.1). -/
def Cache.weighted_size {K V : Type} (c : Cache K V) : Nat :=
  entries_weight c.entries

/-- Modelled from the spec: the eviction loop of a housekeeping pass
(spec section 4.5 step 4): while the weighted size exceeds the maximum,
evict from the policy tail. The head of the entry list plays the role
of the eviction end of the policy order. -/
def evict_until_bounded {K V : Type} (m : Nat) :
    List (K × Entry V) → List (K × Entry V)
  | [] => []
  | p :: rest =>
      if entries_weight (p :: rest) ≤ m then p :: rest
      else evict_until_bounded m rest

/-- Modelled from the spec: a complete housekeeping pass at quiescence
(spec section 4.5): expire every entry whose deadline has elapsed, then,
when a maximum capacity is configured, evict until the weighted size is
within the bound. Event draining is implicit (the model applies events
synchronously) and the work budget is taken as unbounded, which is the
quiescent completion the spec's invariants are stated at. -/
def Cache.run_pending_tasks {K V : Type} (c : Cache K V) (now : Nat) :
    Cache K V :=
  let live := c.entries.filter (fun p => !(c.is_expired p.2 now))
  match c.max_capacity with
  | none => { c with entries := live }
  | some m => { c with entries := evict_until_bounded m live }

/-- The builder's TTL is set and exceeds the 1000-year cutoff. -/
def over_ttl {K V : Type} (b : CacheBuilder K V) : Prop :=
  ∃ d, b.time_to_live = some d ∧ thousand_years < d

/-- The builder's TTI is set and exceeds the 1000-year cutoff. -/
def over_tti {K V : Type} (b : CacheBuilder K V) : Prop :=
  ∃ d, b.time_to_idle = some d ∧ thousand_years < d

/-- The string `needle` occurs contiguously inside `hay`. -/
def str_contains (needle hay : String) : Prop :=
  ∃ pre post, hay = pre ++ needle ++ post

/-- A builder with a TTL of 1001 non-leap years, used as the concrete
over-long configuration. -/
def overlong_ttl_builder : CacheBuilder Nat Nat :=
  (CacheBuilder.new 100).set_time_to_live
    (Duration.from_secs (1001 * YEAR_SECONDS))

theorem Duration.not_lt {a b : Duration} : ¬ a < b ↔ b ≤ a := by
  simp [Duration.lt_def, Duration.le_def, Nat.not_lt]

theorem Duration.not_le {a b : Duration} : ¬ a ≤ b ↔ b < a := by
  simp [Duration.lt_def, Duration.le_def, Nat.not_le]

theorem duration_check_ok_iff (o : Option Duration) (msg : String) :
    duration_check o msg = Except.ok () ↔
      ∀ d, o = some d → d ≤ thousand_years := by
  cases o with
  | none => simp [duration_check]
  | some d =>
      by_cases h : thousand_years < d
      · simp only [duration_check, if_pos h]
        constructor
        · intro hcontra
          exact Except.noConfusion hcontra
        · intro hall
          exact absurd h (Duration.not_lt.mpr (hall d rfl))
      · simp only [duration_check, if_neg h]
        constructor
        · intro _ d2 hd2
          cases hd2
          exact Duration.not_lt.mp h
        · intro _
          trivial

theorem duration_check_cases (o : Option Duration) (msg : String) :
    duration_check o msg = Except.ok () ∨
      duration_check o msg = Except.error msg := by
  cases o with
  | none => exact Or.inl rfl
  | some d =>
      by_cases h : thousand_years < d
      · exact Or.inr (by simp [duration_check, h])
      · exact Or.inl (by simp [duration_check, h])

theorem build_ok_iff_aux {K V : Type} (b : CacheBuilder K V) :
    (∃ ca, b.build = Except.ok ca) ↔
      ((∀ d, b.time_to_live = some d → d ≤ thousand_years) ∧
       (∀ d, b.time_to_idle = some d → d ≤ thousand_years)) := by
  constructor
  · rintro ⟨ca, hca⟩
    unfold CacheBuilder.build at hca
    rcases duration_check_cases b.time_to_live ttl_error_message with h1 | h1 <;>
      rw [h1] at hca
    · rcases duration_check_cases b.time_to_idle tti_error_message with h2 | h2 <;>
        rw [h2] at hca
      · exact ⟨(duration_check_ok_iff _ _).mp h1, (duration_check_ok_iff _ _).mp h2⟩
      · exact Except.noConfusion hca
    · exact Except.noConfusion hca
  · rintro ⟨h1, h2⟩
    refine ⟨Cache.with_everything b.max_capacity b.initial_capacity b.weigher
      b.time_to_live b.time_to_idle, ?_⟩
    unfold CacheBuilder.build
    rw [(duration_check_ok_iff _ _).mpr h1, (duration_check_ok_iff _ _).mpr h2]

theorem build_error_of_over_ttl {K V : Type} (b : CacheBuilder K V)
    (h : over_ttl b) : b.build = Except.error ttl_error_message := by
  rcases h with ⟨d, hd, hlt⟩
  unfold CacheBuilder.build
  rw [hd]
  simp [duration_check, hlt]

theorem build_error_of_over_tti {K V : Type} (b : CacheBuilder K V)
    (hok : ∀ d, b.time_to_live = some d → d ≤ thousand_years)
    (h : over_tti b) : b.build = Except.error tti_error_message := by
  rcases h with ⟨d, hd, hlt⟩
  unfold CacheBuilder.build
  rw [(duration_check_ok_iff _ _).mpr hok, hd]
  simp [duration_check, hlt]

theorem ttl_msg_contains : str_contains "time_to_live" ttl_error_message :=
  ⟨"", " is longer than 1000 years", by decide⟩

theorem tti_msg_contains : str_contains "time_to_idle" tti_error_message :=
  ⟨"", " is longer than 1000 years", by decide⟩

/-- C1: a builder whose TTL or TTI exceeds 1000 years fails `build` with
a precondition error naming the offending option; the message for an
over-long TTL contains "time_to_live", the one for an over-long TTI
contains "time_to_idle" (when both offend, the TTL check fires first).
The validation is binding because the discarded range-check expression
still evaluates its closure eagerly. -/
theorem build_names_offending_option {K V : Type} (b : CacheBuilder K V)
    (h : over_ttl b ∨ over_tti b) :
    ∃ msg, b.build = Except.error msg ∧
      ((over_ttl b ∧ str_contains "time_to_live" msg) ∨
       (over_tti b ∧ str_contains "time_to_idle" msg)) := by
  rcases h with hl | hr
  · exact ⟨ttl_error_message, build_error_of_over_ttl b hl,
      Or.inl ⟨hl, ttl_msg_contains⟩⟩
  · by_cases hok : ∀ d, b.time_to_live = some d → d ≤ thousand_years
    · exact ⟨tti_error_message, build_error_of_over_tti b hok hr,
        Or.inr ⟨hr, tti_msg_contains⟩⟩
    · push_neg at hok
      rcases hok with ⟨d, hd, hgt⟩
      have hl : over_ttl b := ⟨d, hd, Duration.not_le.mp hgt⟩
      exact ⟨ttl_error_message, build_error_of_over_ttl b hl,
        Or.inl ⟨hl, ttl_msg_contains⟩⟩

/-- Witness for C1 at the builder with TTL of 1001 non-leap years. -/
theorem build_names_offending_option_witness :
    ∃ msg, overlong_ttl_builder.build = Except.error msg ∧
      ((over_ttl overlong_ttl_builder ∧ str_contains "time_to_live" msg) ∨
       (over_tti overlong_ttl_builder ∧ str_contains "time_to_idle" msg)) :=
  build_names_offending_option overlong_ttl_builder
    (Or.inl ⟨Duration.from_secs (1001 * YEAR_SECONDS), rfl, by decide⟩)

/-- C2 counterexample: a builder with TTL of 1001 years (over the
cutoff) on which `build_with_hasher` nevertheless returns a cache, so
`build_with_hasher` does NOT enforce the range validation. -/
theorem build_with_hasher_skips_validation_cex :
    over_ttl overlong_ttl_builder ∧
    overlong_ttl_builder.build_with_hasher () =
      Except.ok (Cache.with_everything (some 100) none none
        (some (Duration.from_secs (1001 * YEAR_SECONDS))) none) :=
  ⟨⟨Duration.from_secs (1001 * YEAR_SECONDS), rfl, by decide⟩, rfl⟩

/-- C2 (amended): `build_with_hasher` performs no TTL/TTI range
validation at all; it returns a cache for every builder configuration,
over-long TTL/TTI included. -/
theorem build_with_hasher_always_ok {K V S : Type} (b : CacheBuilder K V)
    (s : S) : ∃ ca, b.build_with_hasher s = Except.ok ca :=
  ⟨_, rfl⟩

/-- C3: `build` fails only on an out-of-range TTL or TTI: it returns a
cache exactly when every configured TTL/TTI is at most 1000 years (the
bound inclusive, so exactly 1000 years succeeds), and no other
configuration option occurs in the condition. -/
theorem build_fails_only_on_range {K V : Type} (b : CacheBuilder K V) :
    (∃ ca, b.build = Except.ok ca) ↔
      ((∀ d, b.time_to_live = some d → d ≤ thousand_years) ∧
       (∀ d, b.time_to_idle = some d → d ≤ thousand_years)) :=
  build_ok_iff_aux b

/-- C4: the all-default builder builds a cache with unbounded max
capacity and no expiration, and `CacheBuilder::new(c).build()` yields a
cache whose max capacity is `Some c`. -/
theorem default_and_new_build_config {K V : Type} :
    (∃ ca, (CacheBuilder.mk_default : CacheBuilder K V).build = Except.ok ca ∧
       ca.max_capacity = none ∧ ca.time_to_live = none ∧
       ca.time_to_idle = none) ∧
    (∀ cap, ∃ ca, (CacheBuilder.new cap : CacheBuilder K V).build =
       Except.ok ca ∧ ca.max_capacity = some cap) :=
  ⟨⟨_, rfl, rfl, rfl, rfl⟩, fun _ => ⟨_, rfl, rfl⟩⟩

/-- C8: every setter updates only its own field and leaves the four
other configuration fields of the receiver unchanged. -/
theorem setters_frame {K V : Type} (b : CacheBuilder K V) (m i : Nat)
    (w : K → V → Nat) (d1 d2 : Duration) :
    ((b.set_max_capacity m).max_capacity = some m ∧
     (b.set_max_capacity m).initial_capacity = b.initial_capacity ∧
     (b.set_max_capacity m).weigher = b.weigher ∧
     (b.set_max_capacity m).time_to_live = b.time_to_live ∧
     (b.set_max_capacity m).time_to_idle = b.time_to_idle) ∧
    ((b.set_initial_capacity i).initial_capacity = some i ∧
     (b.set_initial_capacity i).max_capacity = b.max_capacity ∧
     (b.set_initial_capacity i).weigher = b.weigher ∧
     (b.set_initial_capacity i).time_to_live = b.time_to_live ∧
     (b.set_initial_capacity i).time_to_idle = b.time_to_idle) ∧
    ((b.set_weigher w).weigher = some w ∧
     (b.set_weigher w).max_capacity = b.max_capacity ∧
     (b.set_weigher w).initial_capacity = b.initial_capacity ∧
     (b.set_weigher w).time_to_live = b.time_to_live ∧
     (b.set_weigher w).time_to_idle = b.time_to_idle) ∧
    ((b.set_time_to_live d1).time_to_live = some d1 ∧
     (b.set_time_to_live d1).max_capacity = b.max_capacity ∧
     (b.set_time_to_live d1).initial_capacity = b.initial_capacity ∧
     (b.set_time_to_live d1).weigher = b.weigher ∧
     (b.set_time_to_live d1).time_to_idle = b.time_to_idle) ∧
    ((b.set_time_to_idle d2).time_to_idle = some d2 ∧
     (b.set_time_to_idle d2).max_capacity = b.max_capacity ∧
     (b.set_time_to_idle d2).initial_capacity = b.initial_capacity ∧
     (b.set_time_to_idle d2).weigher = b.weigher ∧
     (b.set_time_to_idle d2).time_to_live = b.time_to_live) :=
  ⟨⟨rfl, rfl, rfl, rfl, rfl⟩, ⟨rfl, rfl, rfl, rfl, rfl⟩,
   ⟨rfl, rfl, rfl, rfl, rfl⟩, ⟨rfl, rfl, rfl, rfl, rfl⟩,
   ⟨rfl, rfl, rfl, rfl, rfl⟩⟩

/-- C9: setters are last-write-wins (a second application of the same
setter overwrites the first), setters of distinct options commute (all
ten pairs), and `CacheBuilder::new c` equals the default builder with
`max_capacity c` applied. -/
theorem setters_algebra {K V : Type} (b : CacheBuilder K V)
    (m1 m2 i1 i2 : Nat) (w1 w2 : K → V → Nat) (d1 d2 e1 e2 : Duration)
    (c : Nat) :
    ((b.set_time_to_live d1).set_time_to_live d2 = b.set_time_to_live d2) ∧
    ((b.set_time_to_idle e1).set_time_to_idle e2 = b.set_time_to_idle e2) ∧
    ((b.set_max_capacity m1).set_max_capacity m2 = b.set_max_capacity m2) ∧
    ((b.set_initial_capacity i1).set_initial_capacity i2 =
       b.set_initial_capacity i2) ∧
    ((b.set_weigher w1).set_weigher w2 = b.set_weigher w2) ∧
    ((b.set_max_capacity m1).set_initial_capacity i1 =
       (b.set_initial_capacity i1).set_max_capacity m1) ∧
    ((b.set_max_capacity m1).set_weigher w1 =
       (b.set_weigher w1).set_max_capacity m1) ∧
    ((b.set_max_capacity m1).set_time_to_live d1 =
       (b.set_time_to_live d1).set_max_capacity m1) ∧
    ((b.set_max_capacity m1).set_time_to_idle e1 =
       (b.set_time_to_idle e1).set_max_capacity m1) ∧
    ((b.set_initial_capacity i1).set_weigher w1 =
       (b.set_weigher w1).set_initial_capacity i1) ∧
    ((b.set_initial_capacity i1).set_time_to_live d1 =
       (b.set_time_to_live d1).set_initial_capacity i1) ∧
    ((b.set_initial_capacity i1).set_time_to_idle e1 =
       (b.set_time_to_idle e1).set_initial_capacity i1) ∧
    ((b.set_weigher w1).set_time_to_live d1 =
       (b.set_time_to_live d1).set_weigher w1) ∧
    ((b.set_weigher w1).set_time_to_idle e1 =
       (b.set_time_to_idle e1).set_weigher w1) ∧
    ((b.set_time_to_live d1).set_time_to_idle e1 =
       (b.set_time_to_idle e1).set_time_to_live d1) ∧
    (CacheBuilder.new c =
       (CacheBuilder.mk_default : CacheBuilder K V).set_max_capacity c) :=
  ⟨rfl, rfl, rfl, rfl, rfl, rfl, rfl, rfl, rfl, rfl, rfl, rfl, rfl, rfl,
   rfl, rfl⟩

/-- C10: the 1000-year cutoff uses 365-day years, i.e. exactly
31,536,000,000 seconds: the TTL (resp. TTI) check passes exactly for
durations of at most that many seconds, and 1000 Julian calendar years
(365,250 days, leap days counted) already fail. -/
theorem year_limit_is_365_day_years {K V : Type} :
    (1000 * YEAR_SECONDS = 31536000000) ∧
    (∀ d : Duration,
      (∃ ca, ((CacheBuilder.mk_default : CacheBuilder K V).set_time_to_live
          d).build = Except.ok ca) ↔
        d.nanos ≤ 31536000000 * NANOS_PER_SEC) ∧
    (∀ d : Duration,
      (∃ ca, ((CacheBuilder.mk_default : CacheBuilder K V).set_time_to_idle
          d).build = Except.ok ca) ↔
        d.nanos ≤ 31536000000 * NANOS_PER_SEC) ∧
    (∀ ca, ((CacheBuilder.mk_default : CacheBuilder K V).set_time_to_live
        (Duration.from_secs (365250 * 24 * 3600))).build ≠ Except.ok ca) := by
  refine ⟨rfl, fun d => ?_, fun d => ?_, fun ca hca => ?_⟩
  · rw [build_ok_iff_aux]
    simp [CacheBuilder.set_time_to_live, CacheBuilder.mk_default,
      Duration.le_def, thousand_years, Duration.from_secs, YEAR_SECONDS,
      NANOS_PER_SEC]
  · rw [build_ok_iff_aux]
    simp [CacheBuilder.set_time_to_idle, CacheBuilder.mk_default,
      Duration.le_def, thousand_years, Duration.from_secs, YEAR_SECONDS,
      NANOS_PER_SEC]
  · have h := ((build_ok_iff_aux _).mp ⟨ca, hca⟩).1 _ rfl
    exact absurd h (by decide)

theorem find?_filter_ne_append {K V : Type} [DecidableEq K]
    (l : List (K × Entry V)) (k : K) (e : Entry V) :
    ((l.filter fun p => decide (p.1 ≠ k)) ++ [(k, e)]).find?
      (fun p => decide (p.1 = k)) = some (k, e) := by
  induction l with
  | nil => simp [List.find?]
  | cons p rest ih =>
      by_cases h : p.1 = k
      · rw [List.filter_cons, if_neg (by simp [h])]
        exact ih
      · rw [List.filter_cons, if_pos (by simp [h]), List.cons_append]
        rw [List.find?_cons, show (decide (p.1 = k)) = false by simp [h]]
        exact ih

theorem is_expired_fresh {K V : Type} (c : Cache K V) (v : V)
    (w now : Nat) : c.is_expired ⟨v, now, now, w⟩ now = false := by
  have h : ∀ x : Nat, ¬ (now + x < now) := by omega
  unfold Cache.is_expired
  cases c.time_to_live <;> cases c.time_to_idle <;> simp [h]

/-- C5: on any cache, `insert(k, v)` followed by `get(k)` at the same
logical time returns `v` (the concurrent-eviction proviso is vacuous in
this single-threaded model), and a single insert into a freshly built
cache gives `len() = 1`. -/
theorem insert_then_get {K V : Type} [DecidableEq K] (c : Cache K V)
    (k : K) (v : V) (now : Nat) :
    (((c.insert k v now).get k now).1 = some v) ∧
    (∀ (mc ic : Option Nat) (w : Option (K → V → Nat))
       (ttl tti : Option Duration),
      ((Cache.with_everything mc ic w ttl tti : Cache K V).insert k v
        now).len = 1) := by
  constructor
  · have hfind : (c.insert k v now).entries.find?
        (fun p => decide (p.1 = k)) =
        some (k, ⟨v, now, now, entry_weight c.weigher k v⟩) :=
      find?_filter_ne_append c.entries k _
    unfold Cache.get
    rw [hfind]
    simp [is_expired_fresh]
  · intro mc ic w ttl tti
    rfl

theorem entries_weight_nil {K V : Type} :
    entries_weight ([] : List (K × Entry V)) = 0 :=
  rfl

theorem entries_weight_cons {K V : Type} (p : K × Entry V)
    (l : List (K × Entry V)) :
    entries_weight (p :: l) = p.2.weight + entries_weight l := by
  simp [entries_weight]

theorem entries_weight_append {K V : Type} (a b : List (K × Entry V)) :
    entries_weight (a ++ b) = entries_weight a + entries_weight b := by
  simp [entries_weight]

theorem entries_weight_filter_le {K V : Type} (f : K × Entry V → Bool)
    (l : List (K × Entry V)) :
    entries_weight (l.filter f) ≤ entries_weight l := by
  induction l with
  | nil => exact Nat.le_refl 0
  | cons p rest ih =>
      by_cases h : f p = true
      · rw [List.filter_cons, if_pos h, entries_weight_cons,
          entries_weight_cons]
        exact Nat.add_le_add_left ih _
      · rw [List.filter_cons, if_neg h, entries_weight_cons]
        exact Nat.le_trans ih (Nat.le_add_left _ _)

theorem evict_until_bounded_le {K V : Type} (m : Nat)
    (l : List (K × Entry V)) :
    entries_weight (evict_until_bounded m l) ≤ m := by
  induction l with
  | nil =>
      rw [show evict_until_bounded m ([] : List (K × Entry V)) = [] from rfl]
      exact Nat.zero_le m
  | cons p rest ih =>
      unfold evict_until_bounded
      by_cases h : entries_weight (p :: rest) ≤ m
      · rw [if_pos h]
        exact h
      · rw [if_neg h]
        exact ih

theorem insert_weight_le {K V : Type} [DecidableEq K] (c : Cache K V)
    (k : K) (v : V) (now : Nat) :
    (c.insert k v now).weighted_size ≤
      c.weighted_size + entry_weight c.weigher k v := by
  unfold Cache.insert Cache.weighted_size
  rw [entries_weight_append, entries_weight_cons, entries_weight_nil]
  dsimp only
  have h := entries_weight_filter_le (fun p => decide (p.1 ≠ k)) c.entries
  omega

/-- C6: at quiescence, i.e. right after a housekeeping pass, the sum of
weights of live entries is at most the configured maximum capacity; one
further admission can exceed the maximum by at most that admission's
weight. -/
theorem housekeeping_weight_bound {K V : Type} [DecidableEq K]
    (c : Cache K V) (now m : Nat) (hm : c.max_capacity = some m) :
    ((c.run_pending_tasks now).weighted_size ≤ m) ∧
    (∀ k v t, ((c.run_pending_tasks now).insert k v t).weighted_size ≤
       m + entry_weight c.weigher k v) := by
  have hrun : (c.run_pending_tasks now).entries =
      evict_until_bounded m
        (c.entries.filter fun p => !(c.is_expired p.2 now)) := by
    unfold Cache.run_pending_tasks
    rw [hm]
  have h1 : (c.run_pending_tasks now).weighted_size ≤ m := by
    unfold Cache.weighted_size
    rw [hrun]
    exact evict_until_bounded_le m _
  refine ⟨h1, fun k v t => ?_⟩
  have h2 := insert_weight_le (c.run_pending_tasks now) k v t
  have hw : (c.run_pending_tasks now).weigher = c.weigher := by
    unfold Cache.run_pending_tasks
    rw [hm]
  rw [hw] at h2
  omega

/-- A concrete over-full cache used to instantiate C6: capacity 2 with
three unit-weight entries. -/
def c6_example : Cache Nat Nat :=
  ⟨some 2, none, none, none, none,
    [(1, ⟨1, 0, 0, 1⟩), (2, ⟨2, 0, 0, 1⟩), (3, ⟨3, 0, 0, 1⟩)]⟩

/-- Witness for C6 at a concrete cache of capacity 2 holding three
unit-weight entries, housekept at time 0 and then given one insert. -/
theorem housekeeping_weight_bound_witness :
    ((c6_example.run_pending_tasks 0).weighted_size ≤ 2) ∧
    ((c6_example.run_pending_tasks 0).insert 4 4 1).weighted_size ≤
      2 + entry_weight c6_example.weigher 4 4 :=
  ⟨(housekeeping_weight_bound c6_example 0 2 rfl).1,
   (housekeeping_weight_bound c6_example 0 2 rfl).2 4 4 1⟩

/-- C7: once the clock is past the TTL deadline of an inserted entry,
`get` treats it as absent — yet nothing is removed synchronously: the
cache is returned unchanged and the entry is still physically present
in the map store. -/
theorem get_expired_ttl {K V : Type} [DecidableEq K] (c : Cache K V)
    (k : K) (v : V) (t0 now : Nat) (d : Duration)
    (httl : c.time_to_live = some d) (hpast : t0 + d.nanos < now) :
    (((c.insert k v t0).get k now).1 = none) ∧
    (((c.insert k v t0).get k now).2 = c.insert k v t0) ∧
    ((c.insert k v t0).entries.find? fun p => decide (p.1 = k)) =
      some (k, ⟨v, t0, t0, entry_weight c.weigher k v⟩) := by
  have hfind : (c.insert k v t0).entries.find?
      (fun p => decide (p.1 = k)) =
      some (k, ⟨v, t0, t0, entry_weight c.weigher k v⟩) :=
    find?_filter_ne_append c.entries k _
  have h2 : (c.insert k v t0).time_to_live = some d := httl
  have hexp : (c.insert k v t0).is_expired
      ⟨v, t0, t0, entry_weight c.weigher k v⟩ now = true := by
    unfold Cache.is_expired
    rw [h2]
    simp [hpast]
  refine ⟨?_, ?_, hfind⟩
  · unfold Cache.get
    rw [hfind]
    simp [hexp]
  · unfold Cache.get
    rw [hfind]
    simp [hexp]

/-- A concrete cache with a 60-second TTL used to instantiate C7. -/
def c7_example : Cache Nat Nat :=
  Cache.with_everything (some 100) none none (some (Duration.from_secs 60))
    none

/-- Witness for C7: insert at time 0 into a cache with a 60 s TTL and
read at 61 s (in nanoseconds): the read is absent and the entry is
still present. -/
theorem get_expired_ttl_witness :
    (((c7_example.insert 7 42 0).get 7 61000000000).1 = none) ∧
    (((c7_example.insert 7 42 0).get 7 61000000000).2 =
       c7_example.insert 7 42 0) ∧
    ((c7_example.insert 7 42 0).entries.find? fun p => decide (p.1 = 7)) =
      some (7, ⟨42, 0, 0, entry_weight c7_example.weigher 7 42⟩) :=
  get_expired_ttl c7_example 7 42 0 61000000000 (Duration.from_secs 60)
    rfl (by decide)

end Moka
